import Mathlib

/-!
# Verification of `magewell_pro_convert.py`

Shallow embedding of the Magewell Pro Convert control client
(`src/magewell_pro_convert.py`) and proofs of the specification claims.

Modelling conventions:

* A parsed JSON value is `JsonVal`.  The device always answers with a JSON
  object; `FetchResult.ok fields` is a successful HTTP GET whose body parsed
  to the object `fields` (a Python `dict`, hence duplicate-free — we use
  first-match association lookup).  `FetchResult.exn` covers every way the
  `try` block can raise before the `status` test: a transport error raised by
  `requests`, a malformed-JSON body (`.json()` raises), or a non-object JSON
  body (`data.get` raises `AttributeError`); all of these hit the
  `except Exception` handler identically in every operation.
* The HTTP transport (`self.session.get` + `.json()`) is an oracle
  `Transport : Request → FetchResult` passed to each operation; a run of an
  operation returns its result, the updated object state, and the list of
  requests it issued, in program order.
* Python numbers are `Int` (the device status codes are integers; floats do
  not occur in this protocol and are not modelled).  Python's `== 0` test is
  `JsonVal.pyEqZero`: it is true for the integer `0` and, as in Python, for
  the boolean `False`; `None == 0` is false.
* `logger.*` calls produce no `print` output and are not modelled; `print`
  calls are collected as output lines (without the trailing newline that
  `print` appends).
-/

/-- A parsed JSON value (Python object produced by `response.json()`). -/
inductive JsonVal where
  | jnull : JsonVal
  | jbool : Bool → JsonVal
  | jnum : Int → JsonVal
  | jstr : String → JsonVal
  | jarr : List JsonVal → JsonVal
  | jobj : List (String × JsonVal) → JsonVal


/-- First-match association lookup on a parsed JSON object's fields.
`none` means the key is absent (Python dicts cannot hold duplicate keys,
so first-match agrees with dict lookup). -/
def jlookup (fields : List (String × JsonVal)) (key : String) : Option JsonVal :=
  match fields with
  | [] => none
  | (k, v) :: rest => if k = key then some v else jlookup rest key

/-- Python `dict.get(key)`: the value, or `None` when absent. -/
def dictGet (fields : List (String × JsonVal)) (key : String) : JsonVal :=
  (jlookup fields key).getD JsonVal.jnull

/-- Python `dict.get(key, default)`. -/
def dictGetD (fields : List (String × JsonVal)) (key : String) (dflt : JsonVal) : JsonVal :=
  (jlookup fields key).getD dflt

/-- Python's `x == 0` on a JSON value: true for the integer `0` and for
`False` (Python booleans compare equal to integers); `None`, strings,
lists and dicts never equal `0`. -/
def JsonVal.pyEqZero : JsonVal → Bool
  | .jnum n => n == 0
  | .jbool b => !b
  | _ => false

/-- Python truthiness of a JSON value (`if x:`). -/
def JsonVal.pyTruthy : JsonVal → Bool
  | .jnull => false
  | .jbool b => b
  | .jnum n => n != 0
  | .jstr s => !s.isEmpty
  | .jarr l => !l.isEmpty
  | .jobj f => !f.isEmpty

/-- The test `data.get("status") == 0` performed by every operation. -/
def statusZero (fields : List (String × JsonVal)) : Bool :=
  (dictGet fields "status").pyEqZero

/-- An HTTP GET request to `http://<ip>/mwapi`, identified by its query
parameters.  `login` carries `id` and `pass`; `setChannel` carries the
`name` parameter (which interactive mode can pass as `None`, i.e. `jnull`,
when a cached source lacks an `ndi-name` field). -/
inductive Request where
  | login : String → String → Request
  | getChannel : Request
  | getNdiSources : Request
  | setChannel : JsonVal → Request


/-- Outcome of one `session.get(...)` + `response.json()` round trip:
either some exception was raised inside the `try` (transport error,
malformed JSON, non-object body), or an object was parsed. -/
inductive FetchResult where
  | exn : FetchResult
  | ok : List (String × JsonVal) → FetchResult


/-- The transport oracle: what one HTTP round trip for a given request
returns.  The real `requests.Session` is stateful only for connection
reuse, which is invisible at this level. -/
def Transport := Request → FetchResult

/-- The `MagewellSwitcher` object state.  `cached_sources = none` models the
`cached_sources` attribute not existing yet (`hasattr` is false); interactive
mode creates it on a successful fetch. -/
structure MagewellSwitcher where
  ip_address : String
  username : String
  password : String
  authenticated : Bool
  cached_sources : Option JsonVal


/-- `MagewellSwitcher.__init__`. -/
def MagewellSwitcher.mk0 (ip_address username password : String) : MagewellSwitcher :=
  { ip_address := ip_address, username := username, password := password,
    authenticated := false, cached_sources := none }

/-! ## MD5 (`hashlib.md5(...).hexdigest()`)

Translation of the MD5 algorithm (RFC 1321) used by `_hash_password`,
over `Nat` with explicit reduction mod `2^32`. -/

/-- The 64 MD5 round constants `K[i] = floor(2^32 * |sin(i+1)|)`. -/
def md5K : List Nat :=
  [3614090360, 3905402710, 606105819, 3250441966, 4118548399, 1200080426,
   2821735955, 4249261313, 1770035416, 2336552879, 4294925233, 2304563134,
   1804603682, 4254626195, 2792965006, 1236535329, 4129170786, 3225465664,
   643717713, 3921069994, 3593408605, 38016083, 3634488961, 3889429448,
   568446438, 3275163606, 4107603335, 1163531501, 2850285829, 4243563512,
   1735328473, 2368359562, 4294588738, 2272392833, 1839030562, 4259657740,
   2763975236, 1272893353, 4139469664, 3200236656, 681279174, 3936430074,
   3572445317, 76029189, 3654602809, 3873151461, 530742520, 3299628645,
   4096336452, 1126891415, 2878612391, 4237533241, 1700485571, 2399980690,
   4293915773, 2240044497, 1873313359, 4264355552, 2734768916, 1309151649,
   4149444226, 3174756917, 718787259, 3951481745]

/-- The MD5 per-round left-rotation amounts. -/
def md5S : List Nat :=
  [7, 12, 17, 22, 7, 12, 17, 22, 7, 12, 17, 22, 7, 12, 17, 22,
   5, 9, 14, 20, 5, 9, 14, 20, 5, 9, 14, 20, 5, 9, 14, 20,
   4, 11, 16, 23, 4, 11, 16, 23, 4, 11, 16, 23, 4, 11, 16, 23,
   6, 10, 15, 21, 6, 10, 15, 21, 6, 10, 15, 21, 6, 10, 15, 21]

/-- 32-bit left rotation. -/
def rotl32 (x n : Nat) : Nat :=
  ((x <<< n) ||| (x >>> (32 - n))) % 4294967296

/-- MD5 round function and message index for round `i`
(the complement `~b` is `b ^^^ 0xFFFFFFFF` on 32-bit words). -/
def md5FG (i b c d : Nat) : Nat × Nat :=
  if i < 16 then ((b &&& c) ||| ((b ^^^ 4294967295) &&& d), i)
  else if i < 32 then ((d &&& b) ||| ((d ^^^ 4294967295) &&& c), (5 * i + 1) % 16)
  else if i < 48 then (b ^^^ c ^^^ d, (3 * i + 5) % 16)
  else (c ^^^ (b ||| (d ^^^ 4294967295)), (7 * i) % 16)

/-- One MD5 round: rotate the register file. -/
def md5Round (M : List Nat) (st : Nat × Nat × Nat × Nat) (i : Nat) : Nat × Nat × Nat × Nat :=
  match st with
  | (a, b, c, d) =>
    let fg := md5FG i b c d
    let sum := (a + fg.1 + md5K.getD i 0 + M.getD fg.2 0) % 4294967296
    (d, (b + rotl32 sum (md5S.getD i 0)) % 4294967296, b, c)

/-- Process one 512-bit block (given as 16 little-endian 32-bit words). -/
def md5ProcessBlock (st : Nat × Nat × Nat × Nat) (M : List Nat) : Nat × Nat × Nat × Nat :=
  match st, (List.range 64).foldl (md5Round M) st with
  | (a0, b0, c0, d0), (a, b, c, d) =>
    ((a0 + a) % 4294967296, (b0 + b) % 4294967296,
     (c0 + c) % 4294967296, (d0 + d) % 4294967296)

/-- 64-bit little-endian byte encoding of the bit length. -/
def toLE64 (n : Nat) : List Nat :=
  (List.range 8).map (fun i => (n >>> (8 * i)) % 256)

/-- MD5 padding: `0x80`, zeros to 56 mod 64, then the 64-bit bit length. -/
def md5Pad (msg : List Nat) : List Nat :=
  msg ++ [128] ++ List.replicate ((119 - msg.length % 64) % 64) 0 ++ toLE64 (8 * msg.length)

/-- Group bytes into little-endian 32-bit words. -/
def bytesToWords : List Nat → List Nat
  | b0 :: b1 :: b2 :: b3 :: rest =>
    (b0 + 256 * b1 + 65536 * b2 + 16777216 * b3) :: bytesToWords rest
  | _ => []

/-- Split a word list into 16-word (512-bit) blocks. -/
def wordsToBlocks : List Nat → List (List Nat)
  | w0 :: w1 :: w2 :: w3 :: w4 :: w5 :: w6 :: w7 ::
    w8 :: w9 :: w10 :: w11 :: w12 :: w13 :: w14 :: w15 :: rest =>
    [w0, w1, w2, w3, w4, w5, w6, w7, w8, w9, w10, w11, w12, w13, w14, w15] ::
      wordsToBlocks rest
  | _ => []

/-- Lower-case hex digit. -/
def hexDigit (n : Nat) : Char :=
  if n < 10 then Char.ofNat (48 + n) else Char.ofNat (87 + n)

/-- Two-digit lower-case hex of a byte. -/
def byteHex (b : Nat) : String :=
  String.mk [hexDigit (b / 16 % 16), hexDigit (b % 16)]

/-- Little-endian hex rendering of a 32-bit word. -/
def wordLEHex (w : Nat) : String :=
  byteHex (w % 256) ++ byteHex ((w >>> 8) % 256) ++
  byteHex ((w >>> 16) % 256) ++ byteHex ((w >>> 24) % 256)

/-- MD5 hex digest of a byte string. -/
def md5Bytes (msg : List Nat) : String :=
  match (wordsToBlocks (bytesToWords (md5Pad msg))).foldl md5ProcessBlock
      (1732584193, 4023233417, 2562383102, 271733878) with
  | (a, b, c, d) => wordLEHex a ++ wordLEHex b ++ wordLEHex c ++ wordLEHex d

/-- UTF-8 encoding of one character (Python `str.encode()`). -/
def utf8Bytes (c : Char) : List Nat :=
  let n := c.toNat
  if n < 128 then [n]
  else if n < 2048 then [192 ||| (n >>> 6), 128 ||| (n &&& 63)]
  else if n < 65536 then
    [224 ||| (n >>> 12), 128 ||| ((n >>> 6) &&& 63), 128 ||| (n &&& 63)]
  else
    [240 ||| (n >>> 18), 128 ||| ((n >>> 12) &&& 63),
     128 ||| ((n >>> 6) &&& 63), 128 ||| (n &&& 63)]

/-- UTF-8 bytes of a string (Python `str.encode()`). -/
def strBytes (s : String) : List Nat :=
  (s.data.map utf8Bytes).flatten

/-- `hashlib.md5(s.encode()).hexdigest()`. -/
def md5hex (s : String) : String :=
  md5Bytes (strBytes s)

/-- `MagewellSwitcher._hash_password`. -/
def MagewellSwitcher.hash_password (s : MagewellSwitcher) : String :=
  md5hex s.password



/-! ## DeviceSession operations

Each operation takes the transport oracle and returns
`(result, updated object, requests issued in program order)`. -/

/-- The login request `method=login&id=<username>&pass=<md5-hex(password)>`
built by `login`. -/
def loginRequest (s : MagewellSwitcher) : Request :=
  Request.login s.username (md5hex s.password)

/-- `MagewellSwitcher.login`: send the login request; on a response with
status `0` set `authenticated = True` and return `True`; on any other
response return `False`; any exception inside the `try` (transport error,
malformed JSON, non-object body) is caught and yields `False`. -/
def MagewellSwitcher.login (s : MagewellSwitcher) (t : Transport) :
    Bool × MagewellSwitcher × List Request :=
  let req := loginRequest s
  match t req with
  | .exn => (false, s, [req])
  | .ok data =>
    if statusZero data then
      (true, { s with authenticated := true }, [req])
    else
      (false, s, [req])

/-- `MagewellSwitcher._check_auth`: if not authenticated, run `login` and
return its result; otherwise return `True` without any request. -/
def MagewellSwitcher.check_auth (s : MagewellSwitcher) (t : Transport) :
    Bool × MagewellSwitcher × List Request :=
  if !s.authenticated then s.login t
  else (true, s, [])

/-- `MagewellSwitcher.get_current_channel`: after `_check_auth`, send
`method=get-channel`; return the parsed object when status is `0`,
else `None`; exceptions are caught and yield `None`. -/
def MagewellSwitcher.get_current_channel (s : MagewellSwitcher) (t : Transport) :
    Option (List (String × JsonVal)) × MagewellSwitcher × List Request :=
  match s.check_auth t with
  | (false, s1, log) => (none, s1, log)
  | (true, s1, log) =>
    match t Request.getChannel with
    | .exn => (none, s1, log ++ [Request.getChannel])
    | .ok data =>
      if statusZero data then (some data, s1, log ++ [Request.getChannel])
      else (none, s1, log ++ [Request.getChannel])

/-- `MagewellSwitcher.get_ndi_sources`: after `_check_auth`, send
`method=get-ndi-sources`; when status is `0` return
`data.get("sources", [])` (the field's value, or an empty list when the
field is absent), else `None`; exceptions are caught and yield `None`. -/
def MagewellSwitcher.get_ndi_sources (s : MagewellSwitcher) (t : Transport) :
    Option JsonVal × MagewellSwitcher × List Request :=
  match s.check_auth t with
  | (false, s1, log) => (none, s1, log)
  | (true, s1, log) =>
    match t Request.getNdiSources with
    | .exn => (none, s1, log ++ [Request.getNdiSources])
    | .ok data =>
      if statusZero data then
        (some (dictGetD data "sources" (JsonVal.jarr [])), s1,
          log ++ [Request.getNdiSources])
      else (none, s1, log ++ [Request.getNdiSources])

/-- `MagewellSwitcher.set_channel`: after `_check_auth`, send
`method=set-channel&ndi-name=true&name=<source_name>`; return `True` iff
status is `0`; exceptions are caught and yield `False`.  The
`source_name` argument is annotated `str` in the source but interactive
mode can pass `None` (a cached source without `ndi-name`), so it is a
`JsonVal` here. -/
def MagewellSwitcher.set_channel (s : MagewellSwitcher) (source_name : JsonVal)
    (t : Transport) : Bool × MagewellSwitcher × List Request :=
  match s.check_auth t with
  | (false, s1, log) => (false, s1, log)
  | (true, s1, log) =>
    match t (Request.setChannel source_name) with
    | .exn => (false, s1, log ++ [Request.setChannel source_name])
    | .ok data =>
      if statusZero data then (true, s1, log ++ [Request.setChannel source_name])
      else (false, s1, log ++ [Request.setChannel source_name])

/-! ## Formatting and `display_ndi_sources` -/

/-- Python `str.ljust` / format spec `<w`: left-justify, pad with spaces
(never truncates). -/
def ljust (s : String) (w : Nat) : String :=
  s ++ String.mk (List.replicate (w - s.length) ' ')

/-- Python format spec `w` on an integer: right-justify, pad with spaces. -/
def rjust (s : String) (w : Nat) : String :=
  String.mk (List.replicate (w - s.length) ' ') ++ s

/-- Python `str(value)` for f-string interpolation without a format spec.
Container rendering is elided (Python would print element reprs); no claim
inspects those renderings. -/
def JsonVal.pyToStr : JsonVal → String
  | .jnull => "None"
  | .jbool b => if b then "True" else "False"
  | .jnum n => toString n
  | .jstr s => s
  | .jarr _ => "[...]"
  | .jobj _ => "\x7b...\x7d"

/-- Python `format(value, spec)` for an alignment/width spec like `<60`:
defined for `str` (identity), `int` (decimal) and `bool` (formatted as the
integer `1`/`0`); `None`, lists and dicts raise `TypeError`, which no
handler in this program catches. -/
def fmtCell : JsonVal → Option String
  | .jstr s => some s
  | .jnum n => some (toString n)
  | .jbool b => some (if b then "1" else "0")
  | _ => none

/-- The 80-dash separator line. -/
def dash80 : String := String.mk (List.replicate 80 '-')

/-- The table header row
`f"{'#':3} | {'Source Name':<60} | {'IP Address':<15}"`. -/
def headerRow : String :=
  ljust "#" 3 ++ " | " ++ ljust "Source Name" 60 ++ " | " ++ ljust "IP Address" 15

/-- One table row `f"{idx:3} | {name:<60} | {ip:<15}"` for the source at
1-based index `idx`; `none` when the iteration body raises (`source.get`
on a non-dict element, or formatting a `None`/container field value). -/
def sourceRow (idx : Nat) (source : JsonVal) : Option String :=
  match source with
  | .jobj f =>
    match fmtCell (dictGetD f "ndi-name" (.jstr "Unknown")),
        fmtCell (dictGetD f "ip-addr" (.jstr "Unknown")) with
    | some name, some ip =>
      some (rjust (toString idx) 3 ++ " | " ++ ljust name 60 ++ " | " ++ ljust ip 15)
    | _, _ => none
  | _ => none

/-- The rows for `enumerate(sources, idx)`. -/
def sourceRows (idx : Nat) : List JsonVal → Option (List String)
  | [] => some []
  | src :: rest =>
    match sourceRow idx src, sourceRows (idx + 1) rest with
    | some r, some rs => some (r :: rs)
    | _, _ => none

/-- `display_ndi_sources(sources)`: the printed lines, or `none` when the
function raises an uncaught exception.  A falsy argument prints the
no-sources message; a truthy non-list (or a list with a non-dict element,
or an unformattable field) raises — iterating a truthy `str`/`dict` yields
`str` elements/keys on which `.get` raises `AttributeError`, and iterating
a number/bool raises `TypeError`. -/
def display_ndi_sources (sources : JsonVal) : Option (List String) :=
  if !sources.pyTruthy then some ["No NDI sources available."]
  else
    match sources with
    | .jarr l =>
      (sourceRows 1 l).map
        (fun rows => ["\nAvailable NDI Sources:", dash80, headerRow, dash80] ++ rows)
    | _ => none

/-! ## Python helpers for the interactive shell -/

/-- Digit run value; `none` if empty or a non-digit appears. -/
def parseDigitsAux : List Char → Nat → Option Nat
  | [], acc => some acc
  | c :: rest, acc =>
    if c.isDigit then parseDigitsAux rest (acc * 10 + (c.toNat - 48)) else none

/-- A nonempty all-digit run. -/
def parseDigits : List Char → Option Nat
  | [] => none
  | l => parseDigitsAux l 0

/-- Python `str.strip()`: drop leading/trailing whitespace (ASCII
whitespace; Python also strips some further Unicode space characters,
which no claim exercises). -/
def pyStrip (s : String) : String :=
  String.mk (((s.data.dropWhile Char.isWhitespace).reverse.dropWhile
    Char.isWhitespace).reverse)

/-- Python `int(string)`: surrounding whitespace stripped, optional sign,
then a nonempty digit run; `none` models `ValueError`.  (Python also
accepts underscores between digits; not modelled, no claim uses them.) -/
def pyInt (str : String) : Option Int :=
  match (pyStrip str).data with
  | '+' :: rest => (parseDigits rest).map Int.ofNat
  | '-' :: rest => (parseDigits rest).map (fun n => -(n : Int))
  | l => (parseDigits l).map Int.ofNat

/-- Python `len(x)`; `none` models `TypeError` on unsized values. -/
def pyLen : JsonVal → Option Nat
  | .jarr l => some l.length
  | .jstr s => some s.length
  | .jobj f => some f.length
  | _ => none

/-- Python `x[i]` for a nonnegative index; `none` models the exceptions
`TypeError`/`KeyError` on non-sequences (a `dict` indexed by an `int`
raises `KeyError` here since response keys are strings). -/
def pyIndex : JsonVal → Nat → Option JsonVal
  | .jarr l, i => l.get? i
  | .jstr s, i => (s.data.get? i).map (fun c => .jstr (String.mk [c]))
  | _, _ => none

/-- Python `x.get(key)`; `none` models `AttributeError` when `x` is not a
dict.  On a dict, an absent key yields `None` (`jnull`). -/
def pyGetObj : JsonVal → String → Option JsonVal
  | .jobj f, k => some (dictGet f k)
  | _, _ => none

/-- Truthiness of an optional value (`if x:` where `x` may be `None`). -/
def optTruthy : Option JsonVal → Bool
  | none => false
  | some v => v.pyTruthy

/-- Truthiness of an optional response dict (`if channel:`). -/
def optObjTruthy : Option (List (String × JsonVal)) → Bool
  | none => false
  | some d => !d.isEmpty

/-! ## Interactive shell (`run_interactive_mode`) -/

/-- Result of one iteration of the interactive loop: continue, exit
(choice 4), or an uncaught exception aborting the process. -/
inductive StepResult where
  | cont : MagewellSwitcher → StepResult
  | exit : MagewellSwitcher → StepResult
  | crash : MagewellSwitcher → StepResult

/-- Observable effects of one loop iteration.  `usedSel` records whether
the iteration consumed a second input line (the source-number prompt).
On a crash, lines printed before the raise are truncated. -/
structure StepOut where
  result : StepResult
  outputs : List String
  requests : List Request
  usedSel : Bool

/-- The menu printed at the top of every iteration. -/
def menuLines : List String :=
  ["\nOptions:", "1. Show current channel", "2. List NDI sources",
   "3. Switch to a source", "4. Exit"]

/-- The lines printed for a fetched channel (shared verbatim between the
`current` subcommand and interactive option 1). -/
def channelLines (channel : Option (List (String × JsonVal))) : List String :=
  if optObjTruthy channel then
    match channel with
    | some d =>
      ["\nCurrent Channel:",
       "Name: " ++ (dictGetD d "name" (.jstr "Unknown")).pyToStr,
       "NDI: " ++ (if (dictGet d "ndi-name").pyTruthy then "Yes" else "No")]
    | none => []
  else ["Failed to retrieve current channel."]

/-- `not hasattr(switcher, "cached_sources") or not switcher.cached_sources`. -/
def cacheMissing (s : MagewellSwitcher) : Bool :=
  match s.cached_sources with
  | none => true
  | some v => !v.pyTruthy

/-- The `try: idx = int(input(...)) ... except ValueError` block of menu
option 3, entered with the cache known present and truthy.  `pre`/`preReq`
are the outputs/requests already produced by this iteration. -/
def selectFromCache (s : MagewellSwitcher) (pre : List String)
    (preReq : List Request) (sel : String) (t : Transport) : StepOut :=
  match pyInt sel with
  | none => ⟨.cont s, pre ++ ["Please enter a valid number."], preReq, true⟩
  | some idx =>
    if idx = 0 then ⟨.cont s, pre, preReq, true⟩
    else if idx < 1 then
      -- `1 <= idx <= len(...)` short-circuits before `len` for idx < 1
      ⟨.cont s, pre ++ ["Invalid source number."], preReq, true⟩
    else
      match pyLen (s.cached_sources.getD .jnull) with
      | none => ⟨.crash s, pre, preReq, true⟩
      | some n =>
        if idx ≤ (n : Int) then
          match pyIndex (s.cached_sources.getD .jnull) (idx - 1).toNat with
          | none => ⟨.crash s, pre, preReq, true⟩
          | some source =>
            match pyGetObj source "ndi-name" with
            | none => ⟨.crash s, pre, preReq, true⟩
            | some source_name =>
              match s.set_channel source_name t with
              | (ok, s1, log) =>
                ⟨.cont s1,
                 pre ++ [if ok then "Successfully switched to: " ++ source_name.pyToStr
                         else "Failed to switch to: " ++ source_name.pyToStr],
                 preReq ++ log, true⟩
        else ⟨.cont s, pre ++ ["Invalid source number."], preReq, true⟩

/-- Menu option 3: fetch sources first when the cache is absent or falsy,
then prompt for a selection. -/
def switchOption (s : MagewellSwitcher) (sel : String) (t : Transport) : StepOut :=
  if cacheMissing s then
    match s.get_ndi_sources t with
    | (res, s1, log) =>
      match res with
      | some v =>
        if v.pyTruthy then
          match display_ndi_sources v with
          | some lines =>
            selectFromCache { s1 with cached_sources := some v }
              (menuLines ++ ["Fetching available sources first..."] ++ lines) log sel t
          | none =>
            ⟨.crash s1, menuLines ++ ["Fetching available sources first..."], log, false⟩
        else
          ⟨.cont s1,
           menuLines ++ ["Fetching available sources first...",
             "Failed to retrieve sources. Please try again."], log, false⟩
      | none =>
        ⟨.cont s1,
         menuLines ++ ["Fetching available sources first...",
           "Failed to retrieve sources. Please try again."], log, false⟩
  else selectFromCache s menuLines [] sel t

/-- One iteration of the interactive loop: print the menu, read and strip
the choice, dispatch.  `sel` is the next input line, consumed only when
option 3 reaches its source-number prompt. -/
def interactiveStep (s : MagewellSwitcher) (rawChoice sel : String)
    (t : Transport) : StepOut :=
  let choice := pyStrip rawChoice
  if choice = "1" then
    match s.get_current_channel t with
    | (ch, s1, log) => ⟨.cont s1, menuLines ++ channelLines ch, log, false⟩
  else if choice = "2" then
    match s.get_ndi_sources t with
    | (res, s1, log) =>
      if optTruthy res then
        match display_ndi_sources (res.getD .jnull) with
        | some lines =>
          ⟨.cont { s1 with cached_sources := res }, menuLines ++ lines, log, false⟩
        | none => ⟨.crash s1, menuLines, log, false⟩
      else ⟨.cont s1, menuLines ++ ["Failed to retrieve NDI sources."], log, false⟩
  else if choice = "3" then switchOption s sel t
  else if choice = "4" then ⟨.exit s, menuLines ++ ["Exiting..."], [], false⟩
  else ⟨.cont s, menuLines ++ ["Invalid option. Please try again."], [], false⟩

/-- Accumulated observations of a (finite prefix of a) loop run. -/
structure RunOut where
  outputs : List String
  crashed : Bool

/-- The interactive loop driven by a finite list of input lines, with a
structural fuel bound (each iteration consumes at least one input line, so
`inputs.length` fuel always suffices).  An exhausted input list truncates
the run (the real `input()` would block awaiting the next line). -/
def runLoopAux (t : Transport) : Nat → MagewellSwitcher → List String → RunOut
  | 0, _, _ => ⟨[], false⟩
  | n + 1, s, inputs =>
    match inputs with
    | [] => ⟨[], false⟩
    | choice :: rest =>
      let so := interactiveStep s choice (rest.headD "") t
      match so.result with
      | .exit _ => ⟨so.outputs, false⟩
      | .crash _ => ⟨so.outputs, true⟩
      | .cont s1 =>
        let r := runLoopAux t n s1 (if so.usedSel then rest.tail else rest)
        ⟨so.outputs ++ r.outputs, r.crashed⟩

/-- The interactive `while True` loop over a finite list of input lines. -/
def runLoop (s : MagewellSwitcher) (inputs : List String) (t : Transport) : RunOut :=
  runLoopAux t inputs.length s inputs

/-- `run_interactive_mode`: banner lines, then the loop. -/
def run_interactive_mode (s : MagewellSwitcher) (inputs : List String)
    (t : Transport) : RunOut :=
  let r := runLoop s inputs t
  ⟨["\nMagewell Switcher Interactive Mode", "Connected to: " ++ s.ip_address]
     ++ r.outputs, r.crashed⟩

/-! ## CLI dispatcher (`main`) -/

/-- A parsed subcommand (`argparse` mechanics are out of scope; the
`interactive` case carries the stdin lines its loop will read). -/
inductive Command where
  | current : Command
  | list : Command
  | set : String → Command
  | interactive : List String → Command
  | nocmd : Command

/-- `main` after argument parsing: construct the switcher, eagerly log in
(exiting with code 1 on failure), dispatch the subcommand, and exit.
Result: `(exit code, printed lines)`.  An uncaught exception (possible in
the `list` and `interactive` branches on malformed device payloads) makes
the interpreter exit with code 1. -/
def mainRun (ip username password : String) (cmd : Command) (t : Transport) :
    Nat × List String :=
  let switcher := MagewellSwitcher.mk0 ip username password
  match switcher.login t with
  | (false, _, _) => (1, ["Failed to authenticate with switcher at " ++ ip])
  | (true, s1, _) =>
    match cmd with
    | .current =>
      match s1.get_current_channel t with
      | (ch, _, _) => (0, channelLines ch)
    | .list =>
      match s1.get_ndi_sources t with
      | (res, _, _) =>
        if optTruthy res then
          match display_ndi_sources (res.getD .jnull) with
          | some lines => (0, lines)
          | none => (1, [])
        else (0, ["Failed to retrieve NDI sources."])
    | .set source =>
      match s1.set_channel (.jstr source) t with
      | (true, _, _) => (0, ["Successfully switched to: " ++ source])
      | (false, _, _) => (0, ["Failed to switch to: " ++ source])
    | .interactive inputs =>
      match run_interactive_mode s1 inputs t with
      | ⟨outs, crashed⟩ => (if crashed then 1 else 0, outs)
    | .nocmd => (0, ["<usage help>"])

/-! ## Predicates and concrete fixtures used by the theorems -/

/-- A failed round trip as seen by an operation: an exception inside the
`try` (transport error, malformed JSON, non-object body) or a parsed
response whose status is not `0`. -/
def badResp (r : FetchResult) : Prop :=
  r = .exn ∨ ∃ data, r = .ok data ∧ statusZero data = false

/-- Whether a step result is a crash (uncaught exception). -/
def StepResult.isCrash : StepResult → Bool
  | .crash _ => true
  | _ => false

/-- Whether a step result exits the loop. -/
def StepResult.isExit : StepResult → Bool
  | .exit _ => true
  | _ => false

/-- Whether a step result continues the loop. -/
def StepResult.isCont : StepResult → Bool
  | .cont _ => true
  | _ => false

/-- The cached source list, if present, is displayable (a list of dict
sources with formatable fields) — the invariant the interactive loop
maintains, since option 2 and option 3 both run `display_ndi_sources`
successfully before assigning the cache. -/
def cacheOK (s : MagewellSwitcher) : Bool :=
  match s.cached_sources with
  | none => true
  | some v => (display_ndi_sources v).isSome

/-- The device's `get-ndi-sources` answer, when successful, carries a
displayable `sources` payload (the well-formedness the wire protocol
promises: `sources: [{ndi-name, ip-addr}]`). -/
def transportSourcesOK (t : Transport) : Bool :=
  match t Request.getNdiSources with
  | .exn => true
  | .ok d =>
    !statusZero d || (display_ndi_sources (dictGetD d "sources" (JsonVal.jarr []))).isSome

/-- A well-formed source entry. -/
def srcObj (nm ip : String) : JsonVal :=
  .jobj [("ndi-name", .jstr nm), ("ip-addr", .jstr ip)]

/-- A three-source demo list. -/
def demoSources : List JsonVal :=
  [srcObj "A" "1.1.1.1", srcObj "B" "2.2.2.2", srcObj "C" "3.3.3.3"]

/-- A transport where every request succeeds with well-formed payloads. -/
def tGood : Transport := fun r =>
  match r with
  | .login _ _ => .ok [("status", .jnum 0)]
  | .getChannel => .ok [("status", .jnum 0), ("name", .jstr "Cam"), ("ndi-name", .jstr "x")]
  | .getNdiSources => .ok [("status", .jnum 0), ("sources", .jarr demoSources)]
  | .setChannel _ => .ok [("status", .jnum 0)]

/-- A transport where every request raises (unreachable device). -/
def tExn : Transport := fun _ => .exn

/-- A transport whose device accepts the login but answers
`get-ndi-sources` with a malformed (non-list) `sources` payload. -/
def tBadSources : Transport := fun r =>
  match r with
  | .login _ _ => .ok [("status", .jnum 0)]
  | .getNdiSources => .ok [("status", .jnum 0), ("sources", .jnum 5)]
  | _ => .exn

/-- A transport whose device reports status `0` with an empty source list. -/
def tEmptySources : Transport := fun r =>
  match r with
  | .login _ _ => .ok [("status", .jnum 0)]
  | .getNdiSources => .ok [("status", .jnum 0), ("sources", .jarr [])]
  | _ => .exn

/-- A transport whose device rejects the login (status 37). -/
def tReject : Transport := fun _ => .ok [("status", .jnum 37)]

/-- A fresh, unauthenticated session. -/
def s0 : MagewellSwitcher := MagewellSwitcher.mk0 "1.2.3.4" "admin" "password"

/-- An authenticated session with no cache. -/
def sAuth : MagewellSwitcher := { s0 with authenticated := true }

/-- An authenticated session with a cached three-source list. -/
def sCached : MagewellSwitcher :=
  { sAuth with cached_sources := some (.jarr demoSources) }

/-- A transport whose device reports status `0` with no `sources` field. -/
def tNoSources : Transport := fun r =>
  match r with
  | .login _ _ => .ok [("status", .jnum 0)]
  | .getNdiSources => .ok [("status", .jnum 0)]
  | _ => .exn

/-- The source object of the formatting test-case in the spec. -/
def camObj : JsonVal :=
  .jobj [("ndi-name", .jstr "CAM-1"), ("ip-addr", .jstr "10.0.0.5")]

/-! ## Helper lemmas -/

theorem login_log (s : MagewellSwitcher) (t : Transport) :
    (s.login t).2.2 = [loginRequest s] := by
  rcases h : t (loginRequest s) with _ | d
  · simp [MagewellSwitcher.login, h]
  · by_cases hz : statusZero d <;> simp [MagewellSwitcher.login, h, hz]

theorem login_preserves_cache (s : MagewellSwitcher) (t : Transport) :
    (s.login t).2.1.cached_sources = s.cached_sources := by
  rcases h : t (loginRequest s) with _ | d
  · simp [MagewellSwitcher.login, h]
  · by_cases hz : statusZero d <;> simp [MagewellSwitcher.login, h, hz]

theorem check_auth_preserves_cache (s : MagewellSwitcher) (t : Transport) :
    (s.check_auth t).2.1.cached_sources = s.cached_sources := by
  unfold MagewellSwitcher.check_auth
  by_cases h : s.authenticated <;> simp [h, login_preserves_cache]

theorem get_ndi_sources_preserves_cache (s : MagewellSwitcher) (t : Transport) :
    (s.get_ndi_sources t).2.1.cached_sources = s.cached_sources := by
  have hp := check_auth_preserves_cache s t
  rcases hca : s.check_auth t with ⟨ok, s1, log⟩
  rw [hca] at hp
  cases ok with
  | false => simpa [MagewellSwitcher.get_ndi_sources, hca] using hp
  | true =>
    rcases h : t Request.getNdiSources with _ | d
    · simpa [MagewellSwitcher.get_ndi_sources, hca, h] using hp
    · by_cases hz : statusZero d <;>
        simpa [MagewellSwitcher.get_ndi_sources, hca, h, hz] using hp

theorem get_current_channel_preserves_cache (s : MagewellSwitcher) (t : Transport) :
    (s.get_current_channel t).2.1.cached_sources = s.cached_sources := by
  have hp := check_auth_preserves_cache s t
  rcases hca : s.check_auth t with ⟨ok, s1, log⟩
  rw [hca] at hp
  cases ok with
  | false => simpa [MagewellSwitcher.get_current_channel, hca] using hp
  | true =>
    rcases h : t Request.getChannel with _ | d
    · simpa [MagewellSwitcher.get_current_channel, hca, h] using hp
    · by_cases hz : statusZero d <;>
        simpa [MagewellSwitcher.get_current_channel, hca, h, hz] using hp

theorem set_channel_preserves_cache (s : MagewellSwitcher) (nm : JsonVal) (t : Transport) :
    (s.set_channel nm t).2.1.cached_sources = s.cached_sources := by
  have hp := check_auth_preserves_cache s t
  rcases hca : s.check_auth t with ⟨ok, s1, log⟩
  rw [hca] at hp
  cases ok with
  | false => simpa [MagewellSwitcher.set_channel, hca] using hp
  | true =>
    rcases h : t (Request.setChannel nm) with _ | d
    · simpa [MagewellSwitcher.set_channel, hca, h] using hp
    · by_cases hz : statusZero d <;>
        simpa [MagewellSwitcher.set_channel, hca, h, hz] using hp

theorem get_ndi_sources_some (s : MagewellSwitcher) (t : Transport) (v : JsonVal)
    (h : (s.get_ndi_sources t).1 = some v) :
    ∃ d, t Request.getNdiSources = .ok d ∧ statusZero d = true ∧
      v = dictGetD d "sources" (.jarr []) := by
  rcases hca : s.check_auth t with ⟨ok, s1, log⟩
  cases ok
  · simp [MagewellSwitcher.get_ndi_sources, hca] at h
  · rcases hr : t Request.getNdiSources with _ | d
    · simp [MagewellSwitcher.get_ndi_sources, hca, hr] at h
    · by_cases hz : statusZero d
      · refine ⟨d, rfl, hz, ?_⟩
        simp [MagewellSwitcher.get_ndi_sources, hca, hr, hz] at h
        exact h.symm
      · simp [MagewellSwitcher.get_ndi_sources, hca, hr, hz] at h

theorem display_isSome_truthy (v : JsonVal) (hd : (display_ndi_sources v).isSome = true)
    (ht : v.pyTruthy = true) : ∃ l, v = .jarr l ∧ (sourceRows 1 l).isSome = true := by
  cases v with
  | jarr l =>
    refine ⟨l, rfl, ?_⟩
    simpa [display_ndi_sources, ht] using hd
  | jnull => simp [JsonVal.pyTruthy] at ht
  | jbool b => simp [display_ndi_sources, ht] at hd
  | jnum n => simp [display_ndi_sources, ht] at hd
  | jstr str => simp [display_ndi_sources, ht] at hd
  | jobj f => simp [display_ndi_sources, ht] at hd

theorem sourceRow_jobj (k : Nat) (x : JsonVal) (h : (sourceRow k x).isSome = true) :
    ∃ f, x = .jobj f := by
  cases x <;> simp [sourceRow] at h ⊢

theorem sourceRows_cons_isSome (k : Nat) (x : JsonVal) (l : List JsonVal)
    (h : (sourceRows k (x :: l)).isSome = true) :
    (sourceRow k x).isSome = true ∧ (sourceRows (k + 1) l).isSome = true := by
  rcases h1 : sourceRow k x with _ | r <;>
    rcases h2 : sourceRows (k + 1) l with _ | rs <;>
      simp [sourceRows, h1, h2] at h ⊢

theorem sourceRows_objs (l : List JsonVal) : ∀ (k : Nat),
    (sourceRows k l).isSome = true → ∀ x ∈ l, ∃ f, x = .jobj f := by
  induction l with
  | nil => intro k _ x hx; simp at hx
  | cons y ys ih =>
    intro k h x hx
    obtain ⟨h1, h2⟩ := sourceRows_cons_isSome k y ys h
    rcases List.mem_cons.mp hx with hx1 | hx1
    · exact hx1 ▸ sourceRow_jobj k y h1
    · exact ih (k + 1) h2 x hx1

theorem selectFromCache_safe (s : MagewellSwitcher) (pre : List String)
    (preReq : List Request) (sel : String) (t : Transport) (l : List JsonVal)
    (hc : s.cached_sources = some (.jarr l)) (hobj : ∀ x ∈ l, ∃ f, x = .jobj f) :
    ∃ s1, (selectFromCache s pre preReq sel t).result = .cont s1 ∧
      s1.cached_sources = s.cached_sources := by
  rcases hp : pyInt sel with _ | idx
  · simp only [selectFromCache, hp]
    exact ⟨s, rfl, rfl⟩
  · simp only [selectFromCache, hp]
    by_cases h0 : idx = 0
    · rw [if_pos h0]; exact ⟨s, rfl, rfl⟩
    · rw [if_neg h0]
      by_cases h1 : idx < 1
      · rw [if_pos h1]; exact ⟨s, rfl, rfl⟩
      · rw [if_neg h1, hc]
        simp only [Option.getD_some, pyLen]
        by_cases h2 : idx ≤ (l.length : Int)
        · rw [if_pos h2]
          have hlt : (idx - 1).toNat < l.length := by omega
          rw [show pyIndex (.jarr l) (idx - 1).toNat = l.get? (idx - 1).toNat from rfl,
            List.get?_eq_get hlt]
          obtain ⟨f, hf⟩ := hobj _ (List.get_mem l _ hlt)
          rw [hf]
          simp only [pyGetObj]
          rcases hsc : s.set_channel (dictGet f "ndi-name") t with ⟨ok, s1, log⟩
          refine ⟨s1, rfl, ?_⟩
          have hpc := set_channel_preserves_cache s (dictGet f "ndi-name") t
          rw [hsc] at hpc
          exact hpc.trans hc
        · rw [if_neg h2]; exact ⟨s, rfl, hc⟩

theorem cacheOK_congr (s1 s2 : MagewellSwitcher)
    (h : s1.cached_sources = s2.cached_sources) : cacheOK s1 = cacheOK s2 := by
  unfold cacheOK
  rw [h]

theorem display_of_sources_ok (s : MagewellSwitcher) (t : Transport) (v : JsonVal)
    (h2 : transportSourcesOK t = true) (hv : (s.get_ndi_sources t).1 = some v) :
    (display_ndi_sources v).isSome = true := by
  obtain ⟨d, hd, hz, hveq⟩ := get_ndi_sources_some s t v hv
  unfold transportSourcesOK at h2
  rw [hd] at h2
  subst hveq
  simpa [hz] using h2

theorem switchOption_safe_cached (s : MagewellSwitcher) (sel : String) (t : Transport)
    (v : JsonVal) (hcache : s.cached_sources = some v) (htr : v.pyTruthy = true)
    (hdisp : (display_ndi_sources v).isSome = true) :
    ∃ s1, (switchOption s sel t).result = .cont s1 ∧ s1.cached_sources = some v := by
  obtain ⟨l, hl, hrows⟩ := display_isSome_truthy v hdisp htr
  have hobj := sourceRows_objs l 1 hrows
  have hmiss : cacheMissing s = false := by simp [cacheMissing, hcache, htr]
  subst hl
  obtain ⟨s1, hres, hcc⟩ := selectFromCache_safe s menuLines [] sel t l hcache hobj
  refine ⟨s1, ?_, ?_⟩
  · simpa [switchOption, hmiss] using hres
  · rw [hcc, hcache]

theorem switchOption_wf (s : MagewellSwitcher) (sel : String) (t : Transport)
    (h1 : cacheOK s = true) (h2 : transportSourcesOK t = true) :
    ((switchOption s sel t).result.isCrash = false) ∧
    ((switchOption s sel t).result.isExit = false) ∧
    (∀ s1, (switchOption s sel t).result = .cont s1 → cacheOK s1 = true) := by
  by_cases hm : cacheMissing s = true
  · rcases hg : s.get_ndi_sources t with ⟨res, s1x, log⟩
    have hpres : s1x.cached_sources = s.cached_sources := by
      have hx := get_ndi_sources_preserves_cache s t
      rw [hg] at hx
      exact hx
    have h1x : cacheOK s1x = true := (cacheOK_congr s1x s hpres).trans h1
    rcases res with _ | v
    · simp only [switchOption, hm, if_true, hg]
      refine ⟨rfl, rfl, ?_⟩
      intro s1 h
      cases h
      exact h1x
    · by_cases htr : v.pyTruthy = true
      · have hv1 : (s.get_ndi_sources t).1 = some v := by rw [hg]
        have hdisp := display_of_sources_ok s t v h2 hv1
        obtain ⟨l, hl, hrows⟩ := display_isSome_truthy v hdisp htr
        have hobj := sourceRows_objs l 1 hrows
        rcases hd : display_ndi_sources v with _ | lines
        · rw [hd] at hdisp
          simp at hdisp
        · have hc2 : (MagewellSwitcher.cached_sources
              { s1x with cached_sources := some v }) = some (.jarr l) := by
            rw [hl]
          obtain ⟨s1, hres2, hcc⟩ := selectFromCache_safe
            { s1x with cached_sources := some v }
            (menuLines ++ ["Fetching available sources first..."] ++ lines) log sel t
            l hc2 hobj
          simp only [switchOption, hm, if_true, hg, htr, hd]
          refine ⟨?_, ?_, ?_⟩
          · rw [hres2]
            rfl
          · rw [hres2]
            rfl
          · intro s2 h
            rw [hres2] at h
            cases h
            have : cacheOK s1 = (display_ndi_sources v).isSome := by
              unfold cacheOK
              rw [hcc]
            rw [this, hdisp]
      · simp only [switchOption, hm, if_true, hg, htr]
        simp only [Bool.not_eq_true] at htr
        simp only [htr, Bool.false_eq_true, if_false]
        refine ⟨rfl, rfl, ?_⟩
        intro s1 h
        cases h
        exact h1x
  · simp only [Bool.not_eq_true] at hm
    have hcache : ∃ v, s.cached_sources = some v ∧ v.pyTruthy = true := by
      unfold cacheMissing at hm
      rcases hcs : s.cached_sources with _ | v
      · rw [hcs] at hm
        simp at hm
      · rw [hcs] at hm
        exact ⟨v, rfl, by simpa using hm⟩
    obtain ⟨v, hcs, htr⟩ := hcache
    have hdisp : (display_ndi_sources v).isSome = true := by
      unfold cacheOK at h1
      rw [hcs] at h1
      exact h1
    obtain ⟨s1, hres, hcc⟩ := switchOption_safe_cached s sel t v hcs htr hdisp
    refine ⟨?_, ?_, ?_⟩
    · rw [hres]
      rfl
    · rw [hres]
      rfl
    · intro s2 h
      rw [hres] at h
      cases h
      have hck : cacheOK s1 = (display_ndi_sources v).isSome := by
        unfold cacheOK
        rw [hcc]
      rw [hck, hdisp]

theorem interactiveStep_wf (s : MagewellSwitcher) (choice sel : String) (t : Transport)
    (h1 : cacheOK s = true) (h2 : transportSourcesOK t = true) :
    ((interactiveStep s choice sel t).result.isCrash = false) ∧
    ((interactiveStep s choice sel t).result.isExit = true ↔ pyStrip choice = "4") ∧
    (∀ s1, (interactiveStep s choice sel t).result = .cont s1 → cacheOK s1 = true) := by
  by_cases hc1 : pyStrip choice = "1"
  · rcases hg : s.get_current_channel t with ⟨ch, s1x, log⟩
    have hpres : s1x.cached_sources = s.cached_sources := by
      have hx := get_current_channel_preserves_cache s t
      rw [hg] at hx
      exact hx
    simp only [interactiveStep]
    rw [if_pos hc1]
    simp only [hg]
    refine ⟨rfl, ?_, ?_⟩
    · simp only [StepResult.isExit, Bool.false_eq_true, false_iff]
      intro h
      exact absurd (hc1.symm.trans h) (by decide)
    · intro s1 h
      cases h
      exact (cacheOK_congr s1x s hpres).trans h1
  · by_cases hc2 : pyStrip choice = "2"
    · rcases hg : s.get_ndi_sources t with ⟨res, s1x, log⟩
      have hpres : s1x.cached_sources = s.cached_sources := by
        have hx := get_ndi_sources_preserves_cache s t
        rw [hg] at hx
        exact hx
      have h1x : cacheOK s1x = true := (cacheOK_congr s1x s hpres).trans h1
      simp only [interactiveStep]
      rw [if_neg hc1, if_pos hc2]
      simp only [hg]
      by_cases htr : optTruthy res = true
      · rcases res with _ | v
        · simp [optTruthy] at htr
        · have hv1 : (s.get_ndi_sources t).1 = some v := by rw [hg]
          have hdisp := display_of_sources_ok s t v h2 hv1
          rcases hd : display_ndi_sources v with _ | lines
          · rw [hd] at hdisp
            simp at hdisp
          · rw [if_pos htr]
            simp only [Option.getD_some, hd]
            refine ⟨rfl, ?_, ?_⟩
            · simp only [StepResult.isExit, Bool.false_eq_true, false_iff]
              intro h
              exact absurd (hc2.symm.trans h) (by decide)
            · intro s1 h
              cases h
              unfold cacheOK
              simp only [hd, Option.isSome_some]
      · rw [if_neg htr]
        refine ⟨rfl, ?_, ?_⟩
        · simp only [StepResult.isExit, Bool.false_eq_true, false_iff]
          intro h
          exact absurd (hc2.symm.trans h) (by decide)
        · intro s1 h
          cases h
          exact h1x
    · by_cases hc3 : pyStrip choice = "3"
      · obtain ⟨ha, hb, hcnt⟩ := switchOption_wf s sel t h1 h2
        simp only [interactiveStep]
        rw [if_neg hc1, if_neg hc2, if_pos hc3]
        refine ⟨ha, ?_, hcnt⟩
        rw [hb]
        simp only [Bool.false_eq_true, false_iff]
        intro h
        exact absurd (hc3.symm.trans h) (by decide)
      · by_cases hc4 : pyStrip choice = "4"
        · simp only [interactiveStep]
          rw [if_neg hc1, if_neg hc2, if_neg hc3, if_pos hc4]
          refine ⟨rfl, ?_, ?_⟩
          · simp only [StepResult.isExit, true_iff]
            exact hc4
          · intro s1 h
            cases h
        · simp only [interactiveStep]
          rw [if_neg hc1, if_neg hc2, if_neg hc3, if_neg hc4]
          refine ⟨rfl, ?_, ?_⟩
          · simp only [StepResult.isExit, Bool.false_eq_true, false_iff]
            exact hc4
          · intro s1 h
            cases h
            exact h1

theorem runLoopAux_no_crash (t : Transport) (h2 : transportSourcesOK t = true) :
    ∀ (fuel : Nat) (s : MagewellSwitcher) (inputs : List String),
      cacheOK s = true → (runLoopAux t fuel s inputs).crashed = false := by
  intro fuel
  induction fuel with
  | zero => intro s inputs _; rfl
  | succ n ih =>
    intro s inputs hcs
    rcases inputs with _ | ⟨choice, rest⟩
    · rfl
    · obtain ⟨hnc, _, hcont⟩ := interactiveStep_wf s choice (rest.headD "") t hcs h2
      simp only [runLoopAux]
      rcases hres : (interactiveStep s choice (rest.headD "") t).result with s1 | s1 | s1
      · simp only [hres]
        exact ih s1 _ (hcont s1 hres)
      · simp only [hres]
      · rw [hres] at hnc
        simp [StepResult.isCrash] at hnc

theorem runLoop_no_crash (s : MagewellSwitcher) (inputs : List String) (t : Transport)
    (h1 : cacheOK s = true) (h2 : transportSourcesOK t = true) :
    (runLoop s inputs t).crashed = false :=
  runLoopAux_no_crash t h2 inputs.length s inputs h1

/-! ## Claim theorems -/

/-- C1: For each of the four data operations (login, get_current_channel,
get_ndi_sources, set_channel), every transport error or malformed-JSON
round trip (`FetchResult.exn`) and every parsed response with non-zero
status makes the operation return `false` (login, set_channel) or `None`
(get_current_channel, get_ndi_sources).  The operations are total
functions of the transport outcome — the embedding of the
`try/except Exception` bodies — so no exception propagates. -/
theorem claim1_failure_policy :
    (∀ (s : MagewellSwitcher) (t : Transport),
      badResp (t (loginRequest s)) → (s.login t).1 = false) ∧
    (∀ (s : MagewellSwitcher) (t : Transport),
      badResp (t Request.getChannel) → (s.get_current_channel t).1 = none) ∧
    (∀ (s : MagewellSwitcher) (t : Transport),
      badResp (t Request.getNdiSources) → (s.get_ndi_sources t).1 = none) ∧
    (∀ (s : MagewellSwitcher) (t : Transport) (nm : JsonVal),
      badResp (t (Request.setChannel nm)) → (s.set_channel nm t).1 = false) := by
  refine ⟨?_, ?_, ?_, ?_⟩
  · intro s t h
    rcases h with he | ⟨d, hd, hz⟩
    · simp [MagewellSwitcher.login, he]
    · simp [MagewellSwitcher.login, hd, hz]
  · intro s t h
    rcases hca : s.check_auth t with ⟨ok, s1, log⟩
    cases ok
    · simp [MagewellSwitcher.get_current_channel, hca]
    · rcases h with he | ⟨d, hd, hz⟩
      · simp [MagewellSwitcher.get_current_channel, hca, he]
      · simp [MagewellSwitcher.get_current_channel, hca, hd, hz]
  · intro s t h
    rcases hca : s.check_auth t with ⟨ok, s1, log⟩
    cases ok
    · simp [MagewellSwitcher.get_ndi_sources, hca]
    · rcases h with he | ⟨d, hd, hz⟩
      · simp [MagewellSwitcher.get_ndi_sources, hca, he]
      · simp [MagewellSwitcher.get_ndi_sources, hca, hd, hz]
  · intro s t nm h
    rcases hca : s.check_auth t with ⟨ok, s1, log⟩
    cases ok
    · simp [MagewellSwitcher.set_channel, hca]
    · rcases h with he | ⟨d, hd, hz⟩
      · simp [MagewellSwitcher.set_channel, hca, he]
      · simp [MagewellSwitcher.set_channel, hca, hd, hz]

/-- Witness for C1 at the unreachable-device transport. -/
theorem claim1_failure_policy_witness :
    (s0.login tExn).1 = false ∧ (sAuth.get_current_channel tExn).1 = none ∧
    (sAuth.get_ndi_sources tExn).1 = none ∧
    (sAuth.set_channel (.jstr "A") tExn).1 = false :=
  ⟨claim1_failure_policy.1 s0 tExn (Or.inl rfl),
   claim1_failure_policy.2.1 sAuth tExn (Or.inl rfl),
   claim1_failure_policy.2.2.1 sAuth tExn (Or.inl rfl),
   claim1_failure_policy.2.2.2 sAuth tExn (.jstr "A") (Or.inl rfl)⟩

/-- C2: `login` returns `True` exactly when the round trip parsed to an
object whose `status` compares equal to `0` (Python `==`), in which case
the only state change is `authenticated := True`; whenever it returns
`False` — non-zero status, or a caught network/parse exception — the
object is left unchanged (in particular `authenticated` is unchanged). -/
theorem claim2_login_contract (s : MagewellSwitcher) (t : Transport) :
    ((s.login t).1 = true ↔
      ∃ d, t (loginRequest s) = .ok d ∧ statusZero d = true) ∧
    ((s.login t).1 = true → (s.login t).2.1 = { s with authenticated := true }) ∧
    ((s.login t).1 = false → (s.login t).2.1 = s) := by
  rcases hr : t (loginRequest s) with _ | d
  · refine ⟨?_, ?_, ?_⟩
    · simp [MagewellSwitcher.login, hr]
    · simp [MagewellSwitcher.login, hr]
    · simp [MagewellSwitcher.login, hr]
  · by_cases hz : statusZero d = true
    · refine ⟨?_, ?_, ?_⟩
      · constructor
        · intro _
          exact ⟨d, rfl, hz⟩
        · intro _
          simp [MagewellSwitcher.login, hr, hz]
      · intro _
        simp [MagewellSwitcher.login, hr, hz]
      · intro h
        simp [MagewellSwitcher.login, hr, hz] at h
    · refine ⟨?_, ?_, ?_⟩
      · constructor
        · intro h
          simp [MagewellSwitcher.login, hr, hz] at h
        · rintro ⟨d2, hd2, hz2⟩
          cases FetchResult.ok.inj hd2
          exact absurd hz2 hz
      · intro h
        simp [MagewellSwitcher.login, hr, hz] at h
      · intro _
        simp [MagewellSwitcher.login, hr, hz]

/-- Witness for C2: a status-0 response authenticates; an exception leaves
the object unchanged. -/
theorem claim2_login_contract_witness :
    (s0.login tGood).2.1 = { s0 with authenticated := true } ∧
    (s0.login tExn).2.1 = s0 :=
  ⟨(claim2_login_contract s0 tGood).2.1 rfl,
   (claim2_login_contract s0 tExn).2.2 rfl⟩

/-- C3: `_check_auth` returns `True` with no request when `authenticated`
is already true; when it is false, `_check_auth` behaves exactly as one
`login` call (whose request log is the single login request); and each
data operation whose `_check_auth` fails returns `None`/`False` with
exactly `_check_auth`'s requests — it never issues its own request. -/
theorem claim3_check_auth_contract :
    (∀ (s : MagewellSwitcher) (t : Transport), s.authenticated = true →
      s.check_auth t = (true, s, [])) ∧
    (∀ (s : MagewellSwitcher) (t : Transport), s.authenticated = false →
      s.check_auth t = s.login t ∧ (s.check_auth t).2.2 = [loginRequest s]) ∧
    (∀ (s : MagewellSwitcher) (t : Transport), (s.check_auth t).1 = false →
      s.get_current_channel t = (none, (s.check_auth t).2) ∧
      s.get_ndi_sources t = (none, (s.check_auth t).2) ∧
      ∀ nm, s.set_channel nm t = (false, (s.check_auth t).2)) := by
  refine ⟨?_, ?_, ?_⟩
  · intro s t h
    simp [MagewellSwitcher.check_auth, h]
  · intro s t h
    constructor
    · simp [MagewellSwitcher.check_auth, h]
    · simp [MagewellSwitcher.check_auth, h, login_log]
  · intro s t h
    rcases hca : s.check_auth t with ⟨ok, s1, log⟩
    rw [hca] at h
    simp only at h
    subst h
    refine ⟨?_, ?_, ?_⟩
    · simp [MagewellSwitcher.get_current_channel, hca]
    · simp [MagewellSwitcher.get_ndi_sources, hca]
    · intro nm
      simp [MagewellSwitcher.set_channel, hca]

/-- Witness for C3: an authenticated session skips login; a fresh session
against an unreachable device fails `_check_auth` and every operation
aborts with only the login request issued. -/
theorem claim3_check_auth_contract_witness :
    sAuth.check_auth tExn = (true, sAuth, []) ∧
    (s0.check_auth tExn = s0.login tExn ∧
      (s0.check_auth tExn).2.2 = [loginRequest s0]) ∧
    (s0.get_current_channel tExn = (none, (s0.check_auth tExn).2) ∧
      s0.get_ndi_sources tExn = (none, (s0.check_auth tExn).2) ∧
      ∀ nm, s0.set_channel nm tExn = (false, (s0.check_auth tExn).2)) :=
  ⟨claim3_check_auth_contract.1 sAuth tExn rfl,
   claim3_check_auth_contract.2.1 s0 tExn rfl,
   claim3_check_auth_contract.2.2 s0 tExn rfl⟩

/-- C4: with `_check_auth` passing, a `get-ndi-sources` response with
status `0` makes `get_ndi_sources` return the value of the response's
`sources` field, the empty list (`some`, not `None`) when the field is
absent, and a response with non-zero status makes it return `None`. -/
theorem claim4_get_ndi_sources_contract (s : MagewellSwitcher) (t : Transport)
    (d : List (String × JsonVal)) (hca : (s.check_auth t).1 = true)
    (hr : t Request.getNdiSources = .ok d) :
    (statusZero d = true → ∀ v, jlookup d "sources" = some v →
      (s.get_ndi_sources t).1 = some v) ∧
    (statusZero d = true → jlookup d "sources" = none →
      (s.get_ndi_sources t).1 = some (.jarr [])) ∧
    (statusZero d = false → (s.get_ndi_sources t).1 = none) := by
  rcases hc : s.check_auth t with ⟨ok, s1, log⟩
  rw [hc] at hca
  have hok : ok = true := hca
  subst hok
  refine ⟨?_, ?_, ?_⟩
  · intro hz v hv
    simp [MagewellSwitcher.get_ndi_sources, hc, hr, hz, dictGetD, hv]
  · intro hz hv
    simp [MagewellSwitcher.get_ndi_sources, hc, hr, hz, dictGetD, hv]
  · intro hz
    simp [MagewellSwitcher.get_ndi_sources, hc, hr, hz]

/-- Witness for C4: present field, absent field, and non-zero status. -/
theorem claim4_get_ndi_sources_contract_witness :
    (sAuth.get_ndi_sources tGood).1 = some (.jarr demoSources) ∧
    (sAuth.get_ndi_sources tNoSources).1 = some (.jarr []) ∧
    (sAuth.get_ndi_sources tReject).1 = none :=
  ⟨(claim4_get_ndi_sources_contract sAuth tGood
      [("status", .jnum 0), ("sources", .jarr demoSources)] rfl rfl).1
        rfl (.jarr demoSources) rfl,
   (claim4_get_ndi_sources_contract sAuth tNoSources
      [("status", .jnum 0)] rfl rfl).2.1 rfl rfl,
   (claim4_get_ndi_sources_contract sAuth tReject
      [("status", .jnum 37)] rfl rfl).2.2 rfl⟩

set_option maxRecDepth 10000 in
/-- C5: the login request always carries `md5hex` of the stored password
(so the hash is a function of the password alone — the same password
hashes identically on every call), `_hash_password` is exactly that MD5
hex digest, and for the password `"password"` the digest is the known
value `5f4dcc3b5aa765d61d8327deb882cf99` (computed by the `md5hex`
translation of MD5 in this file). -/
theorem claim5_password_hash :
    (∀ (s : MagewellSwitcher) (t : Transport),
      (s.login t).2.2 = [Request.login s.username (md5hex s.password)]) ∧
    (∀ s1 s2 : MagewellSwitcher, s1.password = s2.password →
      s1.hash_password = s2.hash_password) ∧
    (∀ s : MagewellSwitcher, s.hash_password = md5hex s.password) ∧
    md5hex "password" = "5f4dcc3b5aa765d61d8327deb882cf99" := by
  refine ⟨?_, ?_, ?_, ?_⟩
  · intro s t
    exact login_log s t
  · intro s1 s2 h
    unfold MagewellSwitcher.hash_password
    rw [h]
  · intro s
    rfl
  · decide

/-- Witness for C5 at two sessions sharing the password `"password"`. -/
theorem claim5_password_hash_witness :
    s0.hash_password = sAuth.hash_password ∧
    (s0.login tExn).2.2 = [Request.login "admin" (md5hex "password")] :=
  ⟨claim5_password_hash.2.1 s0 sAuth rfl, claim5_password_hash.1 s0 tExn⟩

/-- C6: in the interactive switch option with a truthy cached list of
length 3 (middle entry a dict `fb`), input `"0"` cancels back to the menu
with no request; input `"4"` prints the invalid-selection message with no
request; input `"2"` performs exactly one `set_channel` call whose `name`
argument is the `ndi-name` of the cached source at 0-based index 1. -/
theorem claim6_switch_selection (s : MagewellSwitcher) (t : Transport)
    (a c : JsonVal) (fb : List (String × JsonVal))
    (hc : s.cached_sources = some (.jarr [a, .jobj fb, c])) :
    interactiveStep s "3" "0" t = ⟨.cont s, menuLines, [], true⟩ ∧
    interactiveStep s "3" "4" t =
      ⟨.cont s, menuLines ++ ["Invalid source number."], [], true⟩ ∧
    interactiveStep s "3" "2" t =
      ⟨.cont (s.set_channel (dictGet fb "ndi-name") t).2.1,
       menuLines ++ [if (s.set_channel (dictGet fb "ndi-name") t).1 then
           "Successfully switched to: " ++ (dictGet fb "ndi-name").pyToStr
         else "Failed to switch to: " ++ (dictGet fb "ndi-name").pyToStr],
       (s.set_channel (dictGet fb "ndi-name") t).2.2, true⟩ := by
  obtain ⟨ip, un, pw, au, cs⟩ := s
  simp only at hc
  subst hc
  refine ⟨rfl, rfl, rfl⟩

/-- Witness for C6 at the cached three-source demo session. -/
theorem claim6_switch_selection_witness :
    interactiveStep sCached "3" "0" tGood = ⟨.cont sCached, menuLines, [], true⟩ ∧
    interactiveStep sCached "3" "4" tGood =
      ⟨.cont sCached, menuLines ++ ["Invalid source number."], [], true⟩ ∧
    (interactiveStep sCached "3" "2" tGood).requests =
      [Request.setChannel (.jstr "B")] :=
  ⟨(claim6_switch_selection sCached tGood (srcObj "A" "1.1.1.1")
      (srcObj "C" "3.3.3.3")
      [("ndi-name", JsonVal.jstr "B"), ("ip-addr", JsonVal.jstr "2.2.2.2")] rfl).1,
   (claim6_switch_selection sCached tGood (srcObj "A" "1.1.1.1")
      (srcObj "C" "3.3.3.3")
      [("ndi-name", JsonVal.jstr "B"), ("ip-addr", JsonVal.jstr "2.2.2.2")] rfl).2.1,
   by
    rw [(claim6_switch_selection sCached tGood (srcObj "A" "1.1.1.1")
      (srcObj "C" "3.3.3.3")
      [("ndi-name", JsonVal.jstr "B"), ("ip-addr", JsonVal.jstr "2.2.2.2")] rfl).2.2]
    rfl⟩

/-- C7 counterexample: with a device whose successful `get-ndi-sources`
response carries a malformed (non-list) `sources` payload, choosing menu
option `"2"` raises an uncaught `TypeError` inside `display_ndi_sources`,
so the loop terminates although the exit option `"4"` was never chosen —
the claim's universally stated no-termination/exit-only-on-4 property
fails on the code. -/
theorem claim7_loop_counterexample :
    (runLoop sAuth ["2"] tBadSources).crashed = true ∧
    (interactiveStep sAuth "2" "" tBadSources).result.isCrash = true ∧
    pyStrip "2" ≠ "4" :=
  ⟨rfl, rfl, by decide⟩

/-- C7 (amended): provided the cached list and every successful sources
payload are well-formed (displayable lists of dict sources — what a
conforming device sends), one loop iteration never crashes, it exits the
loop exactly when the stripped choice is `"4"`, any unrecognized menu
input is reported with `Invalid option. Please try again.` and the loop
continues, a non-numeric selection input at the switch prompt (cached
truthy list) is reported with `Please enter a valid number.` and the
loop continues, an out-of-range nonzero selection is reported with
`Invalid source number.` and the loop continues, and a whole loop run
never crashes.  (With a malformed payload an uncaught exception aborts
the loop — see the counterexample.) -/
theorem claim7_loop_amended (s : MagewellSwitcher) (choice sel : String)
    (t : Transport) (inputs : List String)
    (h1 : cacheOK s = true) (h2 : transportSourcesOK t = true) :
    ((interactiveStep s choice sel t).result.isCrash = false) ∧
    ((interactiveStep s choice sel t).result.isExit = true ↔ pyStrip choice = "4") ∧
    (pyStrip choice ∉ (["1", "2", "3", "4"] : List String) →
      (interactiveStep s choice sel t).outputs =
        menuLines ++ ["Invalid option. Please try again."] ∧
      (interactiveStep s choice sel t).result.isCont = true) ∧
    (∀ l : List JsonVal, s.cached_sources = some (.jarr l) →
      (JsonVal.jarr l).pyTruthy = true →
      (pyInt sel = none →
        (interactiveStep s "3" sel t).outputs =
          menuLines ++ ["Please enter a valid number."] ∧
        (interactiveStep s "3" sel t).result.isCont = true) ∧
      (∀ idx : Int, pyInt sel = some idx → idx ≠ 0 →
        (idx < 1 ∨ (l.length : Int) < idx) →
        (interactiveStep s "3" sel t).outputs =
          menuLines ++ ["Invalid source number."] ∧
        (interactiveStep s "3" sel t).result.isCont = true)) ∧
    (runLoop s inputs t).crashed = false := by
  obtain ⟨ha, hb, _⟩ := interactiveStep_wf s choice sel t h1 h2
  refine ⟨ha, hb, ?_, ?_, runLoop_no_crash s inputs t h1 h2⟩
  · intro hmem
    simp only [List.mem_cons, List.not_mem_nil, or_false, not_or] at hmem
    obtain ⟨n1, n2, n3, n4⟩ := hmem
    simp only [interactiveStep]
    rw [if_neg n1, if_neg n2, if_neg n3, if_neg n4]
    exact ⟨rfl, rfl⟩
  · intro l hc htr
    have hmiss : cacheMissing s = false := by
      simp [cacheMissing, hc, htr]
    have hsel : interactiveStep s "3" sel t = selectFromCache s menuLines [] sel t := by
      simp only [interactiveStep]
      rw [if_neg (by decide : ¬pyStrip "3" = "1"),
        if_neg (by decide : ¬pyStrip "3" = "2"),
        if_pos (by decide : pyStrip "3" = "3")]
      simp only [switchOption, hmiss, Bool.false_eq_true, if_false]
    rw [hsel]
    constructor
    · intro hp
      simp only [selectFromCache, hp]
      refine ⟨?_, ?_⟩ <;> trivial
    · intro idx hp h0 hrange
      simp only [selectFromCache, hp]
      rw [if_neg h0]
      by_cases hlt : idx < 1
      · rw [if_pos hlt]
        exact ⟨rfl, rfl⟩
      · rw [if_neg hlt, hc]
        simp only [Option.getD_some, pyLen]
        have hle : ¬idx ≤ (l.length : Int) := by
          rcases hrange with hr | hr
          · exact absurd hr hlt
          · omega
        rw [if_neg hle]
        exact ⟨rfl, rfl⟩

/-- Witness for C7 (amended) at a cached three-source session and a
conforming device: an invalid menu input, a non-numeric selection input,
and an out-of-range selection input. -/
theorem claim7_loop_amended_witness :
    (interactiveStep sCached "x" "" tGood).result.isCrash = false ∧
    ((interactiveStep sCached "x" "" tGood).result.isExit = true ↔
      pyStrip "x" = "4") ∧
    ((interactiveStep sCached "x" "" tGood).outputs =
        menuLines ++ ["Invalid option. Please try again."] ∧
      (interactiveStep sCached "x" "" tGood).result.isCont = true) ∧
    ((interactiveStep sCached "3" "abc" tGood).outputs =
        menuLines ++ ["Please enter a valid number."] ∧
      (interactiveStep sCached "3" "abc" tGood).result.isCont = true) ∧
    ((interactiveStep sCached "3" "7" tGood).outputs =
        menuLines ++ ["Invalid source number."] ∧
      (interactiveStep sCached "3" "7" tGood).result.isCont = true) ∧
    (runLoop sCached ["4"] tGood).crashed = false :=
  have h := claim7_loop_amended sCached "x" "" tGood ["4"] rfl rfl
  have hnn := claim7_loop_amended sCached "x" "abc" tGood ["4"] rfl rfl
  have hoor := claim7_loop_amended sCached "x" "7" tGood ["4"] rfl rfl
  ⟨h.1, h.2.1, h.2.2.1 (by decide),
   (hnn.2.2.2.1 demoSources rfl rfl).1 rfl,
   (hoor.2.2.2.1 demoSources rfl rfl).2 7 rfl (by decide) (by decide),
   h.2.2.2.2⟩

/-- C8 counterexample: the eager login succeeds, yet the `list` subcommand
against a device sending a malformed `sources` payload dies of an uncaught
exception and the process exits with code 1, not 0 — the claim's
unconditional "exit 0 after successful login" fails on the code. -/
theorem claim8_exit_code_counterexample :
    ((MagewellSwitcher.mk0 "ip" "u" "p").login tBadSources).1 = true ∧
    (mainRun "ip" "u" "p" Command.list tBadSources).1 = 1 :=
  ⟨rfl, rfl⟩

/-- C8 (amended): the dispatcher logs in eagerly; on login failure it
prints the authentication error and exits with code 1 before dispatching.
On login success the exit code is 0 — unconditionally for `current`,
`set` and the no-subcommand help path (their failures are only printed),
and for `list` and `interactive` provided successful sources payloads are
well-formed (a malformed payload aborts with an uncaught exception and a
nonzero exit — see the counterexample). -/
theorem claim8_exit_code_amended (ip u p : String) (cmd : Command) (t : Transport) :
    (((MagewellSwitcher.mk0 ip u p).login t).1 = false →
      mainRun ip u p cmd t =
        (1, ["Failed to authenticate with switcher at " ++ ip])) ∧
    (((MagewellSwitcher.mk0 ip u p).login t).1 = true →
      (∀ src, (mainRun ip u p Command.current t).1 = 0 ∧
        (mainRun ip u p (Command.set src) t).1 = 0 ∧
        (mainRun ip u p Command.nocmd t).1 = 0) ∧
      (transportSourcesOK t = true →
        (mainRun ip u p Command.list t).1 = 0 ∧
        ∀ inputs, (mainRun ip u p (Command.interactive inputs) t).1 = 0)) := by
  rcases hl : (MagewellSwitcher.mk0 ip u p).login t with ⟨b, s1, log⟩
  have hpc : s1.cached_sources = (MagewellSwitcher.mk0 ip u p).cached_sources := by
    have hx := login_preserves_cache (MagewellSwitcher.mk0 ip u p) t
    rw [hl] at hx
    exact hx
  constructor
  · intro h
    have hb : b = false := h
    subst hb
    simp [mainRun, hl]
  · intro h
    have hb : b = true := h
    subst hb
    constructor
    · intro src
      refine ⟨?_, ?_, ?_⟩
      · simp [mainRun, hl]
      · rcases hsc : s1.set_channel (.jstr src) t with ⟨ok2, s2, log2⟩
        cases ok2 <;> simp [mainRun, hl, hsc]
      · simp [mainRun, hl]
    · intro h2
      constructor
      · rcases hg : s1.get_ndi_sources t with ⟨res, s2, log2⟩
        by_cases htr : optTruthy res = true
        · rcases res with _ | v
          · simp [optTruthy] at htr
          · have hdisp := display_of_sources_ok s1 t v h2 (by rw [hg])
            rcases hd : display_ndi_sources v with _ | lines
            · rw [hd] at hdisp
              simp at hdisp
            · simp [mainRun, hl, hg, htr, hd]
        · simp only [Bool.not_eq_true] at htr
          simp [mainRun, hl, hg, htr]
      · intro inputs
        have hcache : cacheOK s1 = true :=
          (cacheOK_congr s1 (MagewellSwitcher.mk0 ip u p) hpc).trans rfl
        have hnc := runLoop_no_crash s1 inputs t hcache h2
        simp only [mainRun, hl, run_interactive_mode]
        simp [hnc]

/-- Witness for C8 (amended): an unreachable device exits with code 1; a
conforming device exits 0 for `current`, `list` and an interactive run. -/
theorem claim8_exit_code_amended_witness :
    mainRun "ip" "u" "p" Command.current tExn =
      (1, ["Failed to authenticate with switcher at " ++ "ip"]) ∧
    (mainRun "ip" "u" "p" Command.current tGood).1 = 0 ∧
    (mainRun "ip" "u" "p" Command.list tGood).1 = 0 ∧
    (mainRun "ip" "u" "p" (Command.interactive ["4"]) tGood).1 = 0 :=
  have hf := claim8_exit_code_amended "ip" "u" "p" Command.current tExn
  have hg := claim8_exit_code_amended "ip" "u" "p" Command.current tGood
  ⟨hf.1 rfl, ((hg.2 rfl).1 "x").1, ((hg.2 rfl).2 rfl).1, ((hg.2 rfl).2 rfl).2 ["4"]⟩

theorem sourceRows_get (l : List JsonVal) : ∀ (k : Nat) (rows : List String),
    sourceRows k l = some rows → ∀ (i : Nat) (hi : i < l.length),
      rows.get? i = sourceRow (k + i) (l.get ⟨i, hi⟩) := by
  induction l with
  | nil =>
    intro k rows _ i hi
    simp at hi
  | cons y ys ih =>
    intro k rows hr i hi
    rcases h1 : sourceRow k y with _ | r
    · rw [sourceRows, h1] at hr
      rcases h2 : sourceRows (k + 1) ys with _ | rs <;> simp [h2] at hr
    · rcases h2 : sourceRows (k + 1) ys with _ | rs
      · rw [sourceRows, h1, h2] at hr
        simp at hr
      · rw [sourceRows, h1, h2] at hr
        simp only [Option.some.injEq] at hr
        subst hr
        cases i with
        | zero =>
          exact h1.symm
        | succ j =>
          have hj : j < ys.length := by
            simpa [Nat.succ_lt_succ_iff] using hi
          have hrec := ih (k + 1) rs h2 j hj
          show rs.get? j = sourceRow (k + (j + 1)) ((y :: ys).get ⟨j + 1, hi⟩)
          rw [show k + (j + 1) = k + 1 + j by omega]
          exact hrec

/-- C9: in a successfully rendered source table, the row for the source at
1-based index `i + 1` (a dict with string `ndi-name`/`ip-addr` fields) is
exactly the index right-justified in a 3-character column, the name
left-justified (padded, never truncated) in a 60-character column, and the
address left-justified in a 15-character column, separated by `" | "`; and
for the spec's example source `{ndi-name: CAM-1, ip-addr: 10.0.0.5}` at
index 1 the full rendering is the header plus that row. -/
theorem claim9_display_format (l : List JsonVal) (rows : List String) (i : Nat)
    (f : List (String × JsonVal)) (nm ip : String) (hi : i < l.length)
    (hrows : sourceRows 1 l = some rows)
    (hel : l.get ⟨i, hi⟩ = .jobj f)
    (hnm : dictGetD f "ndi-name" (.jstr "Unknown") = .jstr nm)
    (hip : dictGetD f "ip-addr" (.jstr "Unknown") = .jstr ip) :
    rows.get? i = some (rjust (toString (i + 1)) 3 ++ " | " ++
      ljust nm 60 ++ " | " ++ ljust ip 15) ∧
    display_ndi_sources (.jarr [camObj]) =
      some ["\nAvailable NDI Sources:", dash80, headerRow, dash80,
        rjust "1" 3 ++ " | " ++ ljust "CAM-1" 60 ++ " | " ++ ljust "10.0.0.5" 15] := by
  constructor
  · have hg := sourceRows_get l 1 rows hrows i hi
    rw [hg, hel]
    rw [show 1 + i = i + 1 by omega]
    simp [sourceRow, hnm, hip, fmtCell]
  · rfl

/-- Witness for C9 at the spec's example source. -/
theorem claim9_display_format_witness :
    ([rjust "1" 3 ++ " | " ++ ljust "CAM-1" 60 ++ " | " ++
        ljust "10.0.0.5" 15] : List String).get? 0 =
      some (rjust (toString (0 + 1)) 3 ++ " | " ++
        ljust "CAM-1" 60 ++ " | " ++ ljust "10.0.0.5" 15) ∧
    display_ndi_sources (.jarr [camObj]) =
      some ["\nAvailable NDI Sources:", dash80, headerRow, dash80,
        rjust "1" 3 ++ " | " ++ ljust "CAM-1" 60 ++ " | " ++ ljust "10.0.0.5" 15] :=
  claim9_display_format [camObj]
    [rjust "1" 3 ++ " | " ++ ljust "CAM-1" 60 ++ " | " ++ ljust "10.0.0.5" 15]
    0 [("ndi-name", JsonVal.jstr "CAM-1"), ("ip-addr", JsonVal.jstr "10.0.0.5")]
    "CAM-1" "10.0.0.5" (by decide) rfl rfl rfl rfl

/-- C10: when the device reports status `0` with an empty source list,
`get_ndi_sources` returns the empty list but both user-facing paths treat
it like a failed fetch: the CLI `list` subcommand (after a successful
login) prints exactly `Failed to retrieve NDI sources.`, the interactive
list option prints that same message instead of a table, and the
interactive shell leaves its source cache unchanged (the empty list is
never stored), so at the interface an empty list is indistinguishable
from a failed fetch. -/
theorem claim10_empty_sources (s : MagewellSwitcher) (sel ip u p : String)
    (t : Transport) (d : List (String × JsonVal))
    (hr : t Request.getNdiSources = .ok d) (hz : statusZero d = true)
    (he : dictGetD d "sources" (.jarr []) = .jarr []) :
    (((MagewellSwitcher.mk0 ip u p).login t).1 = true →
      (mainRun ip u p Command.list t).2 = ["Failed to retrieve NDI sources."]) ∧
    (interactiveStep s "2" sel t).outputs =
      menuLines ++ ["Failed to retrieve NDI sources."] ∧
    ∃ s1, (interactiveStep s "2" sel t).result = .cont s1 ∧
      s1.cached_sources = s.cached_sources := by
  have hres : ∀ s2 : MagewellSwitcher, optTruthy (s2.get_ndi_sources t).1 = false := by
    intro s2
    rcases hg : s2.get_ndi_sources t with ⟨res, s2x, log⟩
    rcases res with _ | v
    · rfl
    · obtain ⟨d2, hd2, hz2, hv⟩ := get_ndi_sources_some s2 t v (by rw [hg])
      rw [hr] at hd2
      cases FetchResult.ok.inj hd2
      rw [he] at hv
      subst hv
      rfl
  refine ⟨?_, ?_, ?_⟩
  · intro hlogin
    rcases hl : (MagewellSwitcher.mk0 ip u p).login t with ⟨b, s1, log⟩
    rw [hl] at hlogin
    have hb : b = true := hlogin
    subst hb
    rcases hg : s1.get_ndi_sources t with ⟨res, s2, log2⟩
    have hrx := hres s1
    rw [hg] at hrx
    simp [mainRun, hl, hg, hrx]
  · rcases hg : s.get_ndi_sources t with ⟨res, s1x, log⟩
    have hrx := hres s
    rw [hg] at hrx
    simp only [interactiveStep]
    rw [if_neg (by decide : ¬pyStrip "2" = "1"), if_pos (by decide : pyStrip "2" = "2")]
    simp only [hg]
    rw [if_neg (by rw [hrx]; exact Bool.false_ne_true)]
  · rcases hg : s.get_ndi_sources t with ⟨res, s1x, log⟩
    have hrx := hres s
    rw [hg] at hrx
    have hpres : s1x.cached_sources = s.cached_sources := by
      have hx := get_ndi_sources_preserves_cache s t
      rw [hg] at hx
      exact hx
    refine ⟨s1x, ?_, hpres⟩
    simp only [interactiveStep]
    rw [if_neg (by decide : ¬pyStrip "2" = "1"), if_pos (by decide : pyStrip "2" = "2")]
    simp only [hg]
    rw [if_neg (by rw [hrx]; exact Bool.false_ne_true)]

/-- Witness for C10 at the empty-sources device. -/
theorem claim10_empty_sources_witness :
    (mainRun "ip" "u" "p" Command.list tEmptySources).2 =
      ["Failed to retrieve NDI sources."] ∧
    (interactiveStep sAuth "2" "" tEmptySources).outputs =
      menuLines ++ ["Failed to retrieve NDI sources."] ∧
    ∃ s1, (interactiveStep sAuth "2" "" tEmptySources).result = .cont s1 ∧
      s1.cached_sources = sAuth.cached_sources :=
  have h := claim10_empty_sources sAuth "" "ip" "u" "p" tEmptySources
    [("status", .jnum 0), ("sources", .jarr [])] rfl rfl rfl
  ⟨h.1 rfl, h.2.1, h.2.2⟩
